import Mathlib

/-!
Verification of the poc-twilio-call-recorder service against its design
specification.  The definitions below are a shallow embedding of the
repository's TypeScript source:

* `saveCalls`, `getCalls`, `deleteCall` embed the sqlite persistence layer
  (`src/unnamed/part_008`, i.e. the dashboard server's `db.ts`);
* `listCalls` embeds the bun server's `/calls` handler (`src/unnamed/part_009`)
  and `apiCallsHandler` the Express `GET /api/calls` handler
  (`src/dashboard/server/index.ts`);
* `deleteCallHandler` embeds the Express `DELETE /api/calls/:id` handler;
* `pollTranscriptFrom` / `pollCallStatusAux` embed the two polling loops;
* `dashboardBroadcast` / `bunBroadcast` embed the two socket fan-out loops;
* `recordingStatusHandler` / `bunRecordingStatusHandler` embed the two
  `/recording-status` webhook handlers.

External HTTP effects (Twilio calls, socket sends) are represented by
environment parameters; sqlite failures are represented by injected fault
flags; timestamps are natural numbers (`CURRENT_TIMESTAMP` / ISO strings both
order chronologically).
-/

/-- One utterance of a call's transcript, as stored in the `transcript` field
of a `CallRecord` (`types.ts`). -/
structure TranscriptLine where
  speaker : String
  text : String
deriving DecidableEq, Repr

/-- A sentence returned by Twilio Voice Intelligence (`types.ts`,
`TranscriptSentence`): the audio channel number and the sentence text. -/
structure TranscriptSentence where
  media_channel : Int
  transcript : String
deriving DecidableEq, Repr

/-- The in-memory call record assembled by the webhook handlers
(`types.ts`, `CallRecord`; the dashboard handler additionally sets
`recordingType` and `transcript_sid`).  `from`/`to` are spelled `from_`/`to_`
because `from` is a Lean keyword. -/
structure CallRecord where
  id : String
  from_ : String
  to_ : String
  from_number : String
  to_number : String
  duration : String
  recordingUrl : String
  piiUrl : String
  recordingType : String
  transcript_sid : String
  createdAt : Nat
  transcript : List TranscriptLine
deriving DecidableEq, Repr

/-- A row of the sqlite `calls` table (`db.ts`, `CREATE TABLE calls`). -/
structure CallRow where
  id : String
  from_number : String
  to_number : String
  duration : String
  recording_url : String
  pii_url : String
  transcript_sid : String
  recording_type : String
  created_at : Nat
deriving DecidableEq, Repr

/-- A row of the sqlite `transcripts` table (`db.ts`,
`CREATE TABLE transcripts`). -/
structure TranscriptRow where
  call_id : String
  speaker : String
  text : String
deriving DecidableEq, Repr

/-- The two sqlite tables. -/
structure DBState where
  calls : List CallRow
  transcripts : List TranscriptRow
deriving DecidableEq, Repr

/-- Injected sqlite failures: whether the `INSERT INTO calls` statement
errors, and which of the per-line `INSERT INTO transcripts` statements error
(absent entries mean no error). -/
structure SaveFaults where
  callInsertFault : Bool
  lineFaults : List Bool
deriving DecidableEq, Repr

/-- No injected sqlite failures. -/
def noFaults : SaveFaults := ⟨false, []⟩

/-- The `calls` row built by `saveCalls` (`db.ts`): `recording_type` is
derived from the truthiness of `call.piiUrl`, and `created_at` is the
database's `CURRENT_TIMESTAMP`. -/
def mkCallRow (call : CallRecord) (transcriptSid : String) (now : Nat) : CallRow :=
  { id := call.id
    from_number := call.from_number
    to_number := call.to_number
    duration := call.duration
    recording_url := call.recordingUrl
    pii_url := call.piiUrl
    transcript_sid := transcriptSid
    recording_type := if call.piiUrl == "" then "regular" else "redacted"
    created_at := now }

/-- The `transcripts` rows built by `saveCalls` from a call's lines. -/
def mkTranscriptRows (call : CallRecord) : List TranscriptRow :=
  call.transcript.map (fun t => { call_id := call.id, speaker := t.speaker, text := t.text })

/-- `saveCalls(call, transcriptSid)` (`db.ts`): inside one
`BEGIN IMMEDIATE TRANSACTION`, insert the call row (failing on an injected
fault or a duplicate primary key), then insert every transcript line (a
failing line sets `transcriptErrors`); any failure issues `ROLLBACK`
(restoring the pre-transaction state) and rejects, otherwise `COMMIT`. -/
def saveCalls (f : SaveFaults) (call : CallRecord) (transcriptSid : String) (now : Nat)
    (db : DBState) : Except String Unit × DBState :=
  if f.callInsertFault || db.calls.any (fun r => r.id == call.id) then
    (Except.error "Error inserting call record", db)
  else if (List.range call.transcript.length).any (fun i => f.lineFaults.getD i false) then
    (Except.error "Failed to insert transcripts", db)
  else
    (Except.ok (), { calls := db.calls ++ [mkCallRow call transcriptSid now]
                     transcripts := db.transcripts ++ mkTranscriptRows call })

/-- Newest-first ordering on call rows (`ORDER BY c.created_at DESC`). -/
def newerFirst (a b : CallRow) : Prop := b.created_at ≤ a.created_at

instance : DecidableRel newerFirst := fun a b => Nat.decLe b.created_at a.created_at

instance : IsTotal CallRow newerFirst := ⟨fun a b => Nat.le_total b.created_at a.created_at⟩

instance : IsTrans CallRow newerFirst := ⟨fun _ _ _ h1 h2 => Nat.le_trans h2 h1⟩

/-- The record `getCalls` builds from a `calls` row: the joined transcript
lines are the `transcripts` rows with this row's `call_id`, in insertion
order (`GROUP_CONCAT` over the left join). -/
def rowToRecord (db : DBState) (r : CallRow) : CallRecord :=
  { id := r.id
    from_ := r.from_number
    to_ := r.to_number
    from_number := r.from_number
    to_number := r.to_number
    duration := r.duration
    recordingUrl := r.recording_url
    piiUrl := r.pii_url
    recordingType := r.recording_type
    transcript_sid := r.transcript_sid
    createdAt := r.created_at
    transcript := (db.transcripts.filter (fun t => t.call_id == r.id)).map
      (fun t => { speaker := t.speaker, text := t.text }) }

/-- `getCalls()` (`db.ts`): `SELECT ... ORDER BY c.created_at DESC`; on a read
error the callback logs and resolves with `[]` instead of rejecting. -/
def getCalls (readFault : Bool) (db : DBState) : List CallRecord :=
  if readFault then []
  else (List.insertionSort newerFirst db.calls).map (rowToRecord db)

/-- `deleteCall(id)` (`db.ts`): inside one transaction, check the call
exists (rejecting with `No call found to delete` otherwise), then delete its
transcript rows and its call row. -/
def deleteCall (id : String) (db : DBState) : Except String DBState :=
  if db.calls.any (fun r => r.id == id) then
    Except.ok { calls := db.calls.filter (fun r => !(r.id == id))
                transcripts := db.transcripts.filter (fun t => !(t.call_id == id)) }
  else
    Except.error "No call found to delete"

/-- JS `String.prototype.includes`: substring containment. -/
def strContains (hay needle : String) : Bool :=
  decide (needle.data <:+: hay.data)

/-- JS `String.prototype.toLowerCase`, character by character. -/
def lowerStr (s : String) : String := ⟨s.data.map Char.toLower⟩

/-- The `/calls` search predicate of the bun server (`part_009`): the number
fields are matched with plain `includes`, only the transcript text is
lower-cased on both sides. -/
def codeMatches (search : String) (c : CallRecord) : Bool :=
  strContains c.from_number search || strContains c.to_number search ||
    c.transcript.any (fun t => strContains (lowerStr t.text) (lowerStr search))

/-- The spec's words for the same predicate (`list ... matches against origin
number, destination number, or any transcript line text (case-insensitive
substring)`): all three fields compared case-insensitively. -/
def specMatches (search : String) (c : CallRecord) : Bool :=
  strContains (lowerStr c.from_number) (lowerStr search) ||
    strContains (lowerStr c.to_number) (lowerStr search) ||
    c.transcript.any (fun t => strContains (lowerStr t.text) (lowerStr search))

/-- The `/calls` handler's filter step: applied only when `search` is
truthy. -/
def filteredCalls (search : String) (db : DBState) : List CallRecord :=
  let calls := getCalls false db
  if search == "" then calls else calls.filter (codeMatches search)

/-- Response shape of the bun server's `/calls` route. -/
structure ListResult where
  calls : List CallRecord
  total : Nat
  pages : Nat
  currentPage : Nat
  limit : Nat
deriving DecidableEq, Repr

/-- The bun server's `/calls` route (`part_009`): fetch, filter by the search
term, then slice `[(page-1)*limit, page*limit)`. -/
def listCalls (page limit : Nat) (search : String) (db : DBState) : ListResult :=
  let f := filteredCalls search db
  { calls := (f.drop ((page - 1) * limit)).take limit
    total := f.length
    pages := (f.length + limit - 1) / limit
    currentPage := page
    limit := limit }

/-- Response shape of the Express `GET /api/calls` route. -/
structure ApiCallsResult where
  status : Nat
  data : List CallRecord
  total : Nat
  totalPages : Nat
deriving DecidableEq, Repr

/-- The Express `GET /api/calls` handler (`index.ts`): await `getCalls`,
slice the page.  The `catch` branch (HTTP 500) is unreachable through
`getCalls`, which resolves with `[]` on a read error instead of rejecting. -/
def apiCallsHandler (readFault : Bool) (page limit : Nat) (db : DBState) : ApiCallsResult :=
  let calls := getCalls readFault db
  { status := 200
    data := (calls.drop ((page - 1) * limit)).take limit
    total := calls.length
    totalPages := (calls.length + limit - 1) / limit }

/-- A connected dashboard socket: its identity, whether `readyState` is
`OPEN`, and whether calling `send` on it throws. -/
structure WsClient where
  cid : Nat
  isOpen : Bool
  sendFails : Bool
deriving DecidableEq, Repr

/-- The Express server's broadcast (`index.ts`, used for both `new_call` and
`delete_call`): `wsClients.forEach` sends to each client with
`readyState === OPEN`; there is no per-client `try`, so a throwing `send`
propagates and the remaining clients are never visited.  Returns the ids
delivered to, and whether the loop raised. -/
def dashboardBroadcast : List WsClient → List Nat × Bool
  | [] => ([], false)
  | c :: rest =>
    if c.isOpen then
      if c.sendFails then ([], true)
      else
        let r := dashboardBroadcast rest
        (c.cid :: r.1, r.2)
    else dashboardBroadcast rest

/-- The bun server's broadcast (`part_009`): send to every client in the set,
each send wrapped in `try`/`catch`; a client whose send throws is removed
from the set.  Returns the ids delivered to and the remaining client set. -/
def bunBroadcast : List WsClient → List Nat × List WsClient
  | [] => ([], [])
  | c :: rest =>
    let r := bunBroadcast rest
    if c.sendFails then (r.1, r.2) else (c.cid :: r.1, c :: r.2)

/-- Result of the Express `DELETE /api/calls/:id` handler. -/
structure DeleteResult where
  status : Nat
  deletedCalls : List String
  db : DBState
deriving DecidableEq, Repr

/-- The Express `DELETE /api/calls/:id` handler (`index.ts`): an id already
in the in-memory `deletedCalls` set short-circuits to 204; otherwise
`deleteCall` runs, the id is recorded, the deletion is broadcast (a throwing
send is caught by the handler's `catch`, turning the response into 500), and
204 is sent; a rejected `deleteCall` yields 500. -/
def deleteCallHandler (id : String) (deletedCalls : List String) (clients : List WsClient)
    (db : DBState) : DeleteResult :=
  if deletedCalls.contains id then ⟨204, deletedCalls, db⟩
  else
    match deleteCall id db with
    | Except.ok db' =>
      let deleted' := deletedCalls ++ [id]
      if (dashboardBroadcast clients).2 then ⟨500, deleted', db'⟩
      else ⟨204, deleted', db'⟩
    | Except.error _ => ⟨500, deletedCalls, db⟩

/-- What one iteration of `pollTranscriptStatus` observes: the transcript
fetch threw / returned non-ok / was malformed, or it returned a transcript
with some `status`, together with what the follow-up media fetch
(`none` = failed or malformed) and sentences fetch would yield at this
attempt. -/
inductive TranscriptAttempt where
  | fetchError
  | status (s : String) (media : Option String) (sentences : Option (List TranscriptSentence))
deriving DecidableEq, Repr

/-- How `pollTranscriptStatus` fails: a rethrown gateway error on the last
attempt, or `Transcript processing timed out` after the loop. -/
inductive PollError where
  | gateway
  | timeout
deriving DecidableEq, Repr

/-- The body of `pollTranscriptStatus` (`index.ts` / `part_009`, identical
control flow): at each attempt a thrown error is caught and retried unless
this was the last attempt; a transcript with status `completed` triggers the
media fetch (throwing on failure or an empty `media_url`) and the sentences
fetch (throwing on failure), retried under the same rule; any other status
just waits and retries; exhausting the loop throws the timeout error.
`remaining` counts the attempts left including the current one. -/
def pollTranscriptFrom (env : Nat → TranscriptAttempt) :
    Nat → Nat → Except PollError (String × List TranscriptSentence)
  | _, 0 => Except.error PollError.timeout
  | attempt, remaining + 1 =>
    match env attempt with
    | TranscriptAttempt.fetchError =>
      if remaining == 0 then Except.error PollError.gateway
      else pollTranscriptFrom env (attempt + 1) remaining
    | TranscriptAttempt.status s media sentences =>
      if s == "completed" then
        match media with
        | none =>
          if remaining == 0 then Except.error PollError.gateway
          else pollTranscriptFrom env (attempt + 1) remaining
        | some url =>
          if url == "" then
            if remaining == 0 then Except.error PollError.gateway
            else pollTranscriptFrom env (attempt + 1) remaining
          else
            match sentences with
            | none =>
              if remaining == 0 then Except.error PollError.gateway
              else pollTranscriptFrom env (attempt + 1) remaining
            | some xs => Except.ok (url, xs)
      else pollTranscriptFrom env (attempt + 1) remaining

/-- `pollTranscriptStatus(transcriptSid, maxAttempts)`. -/
def pollTranscriptStatus (env : Nat → TranscriptAttempt) (maxAttempts : Nat) :
    Except PollError (String × List TranscriptSentence) :=
  pollTranscriptFrom env 0 maxAttempts

/-- What one tick of `pollCallStatus` observes: the fetch (or body parse)
threw, or it produced a call object with some `status` string. -/
inductive CallStatusTick where
  | fetchError
  | status (s : String)
deriving DecidableEq, Repr

/-- The interval body of `pollCallStatus` (`index.ts`): a thrown error is
caught and clears the interval; `completed`/`failed` clears the interval;
otherwise `++attempts >= maxAttempts` clears it.  `in-progress` sets the
recording flag.  Returns the number of ticks executed and the final
recording flag; `b` counts the further non-terminal ticks still allowed
after this one (`maxAttempts - attempts - 1`). -/
def pollCallStatusAux (env : Nat → CallStatusTick) : Nat → Nat → Bool → Nat × Bool
  | tick, b, recordingStarted =>
    match env tick with
    | CallStatusTick.fetchError => (tick + 1, recordingStarted)
    | CallStatusTick.status s =>
      let started := recordingStarted || (s == "in-progress")
      if s == "completed" || s == "failed" then (tick + 1, started)
      else
        match b with
        | 0 => (tick + 1, started)
        | b' + 1 => pollCallStatusAux env (tick + 1) b' started

/-- `pollCallStatus(callSid, piiRedaction)` with its `maxAttempts = 30`: the
first tick may be followed by at most 29 further non-terminal ticks. -/
def pollCallStatus (env : Nat → CallStatusTick) : Nat × Bool :=
  pollCallStatusAux env 0 29 false

/-- The external world a `/recording-status` invocation sees: the result of
the `POST /v2/Transcripts` creation call, and the transcript poll
observations. -/
structure RecordingEnv where
  createTranscript : Except Unit String
  poll : Nat → TranscriptAttempt

/-- The webhook parameters read by the Express `/recording-status` handler;
`RecordingDuration` is `none` when the parameter is absent. -/
structure RecordingParams where
  CallSid : String
  RecordingSid : String
  RecordingUrl : String
  RecordingStatus : String
  RecordingDuration : Option String
deriving DecidableEq, Repr

/-- What a `/recording-status` invocation produced: the HTTP status, the
database afterwards, and the call record it persisted (if any). -/
structure HandlerResult where
  status : Nat
  db : DBState
  saved : Option CallRecord
deriving DecidableEq, Repr

/-- Speaker-role mapping applied to the sentence list
(`s.media_channel === 1 ? 'customer' : 'assistant'`). -/
def mapSentences (sentences : List TranscriptSentence) : List TranscriptLine :=
  sentences.map (fun s =>
    { speaker := if s.media_channel == (1 : Int) then "customer" else "assistant"
      text := s.transcript })

/-- The `CallRecord` assembled by the Express `/recording-status` handler
(`index.ts`, lines 418-434). -/
def assembleCallRecord (p : RecordingParams) (d : String × String) (piiRedaction : Bool)
    (transcriptSid mediaUrl : String) (sentences : List TranscriptSentence) (now : Nat) :
    CallRecord :=
  { id := p.CallSid
    from_ := d.1
    to_ := d.2
    from_number := d.1
    to_number := d.2
    duration := match p.RecordingDuration with
      | none => "0"
      | some s => if s == "" then "0" else s
    recordingUrl := mediaUrl
    piiUrl := if piiRedaction then mediaUrl else ""
    recordingType := if piiRedaction then "redacted" else "regular"
    transcript_sid := transcriptSid
    createdAt := now
    transcript := if piiRedaction then mapSentences sentences else [] }

/-- The Express `/recording-status` handler (`index.ts`): on
`RecordingStatus=completed`, look up the cached call details (throwing — 500
— when absent); with `piiRedaction` create a transcript job and poll it
(any throw → 500); assemble the record, `saveCalls` (rejection → 500), then
broadcast `new_call` (a throwing send is caught by the handler → 500, after
the save); otherwise respond 200. -/
def recordingStatusHandler (env : RecordingEnv) (p : RecordingParams) (piiRedaction : Bool)
    (callDetails : List (String × String × String)) (f : SaveFaults)
    (clients : List WsClient) (now : Nat) (db : DBState) : HandlerResult :=
  if p.RecordingStatus != "completed" then ⟨200, db, none⟩
  else
    match callDetails.lookup p.CallSid with
    | none => ⟨500, db, none⟩
    | some d =>
      let fetched : Except PollError (String × String × List TranscriptSentence) :=
        if piiRedaction then
          match env.createTranscript with
          | Except.error _ => Except.error PollError.gateway
          | Except.ok tsid =>
            match pollTranscriptStatus env.poll 10 with
            | Except.error e => Except.error e
            | Except.ok (url, xs) => Except.ok (tsid, url, xs)
        else Except.ok ("", p.RecordingUrl, [])
      match fetched with
      | Except.error _ => ⟨500, db, none⟩
      | Except.ok (tsid, mediaUrl, sentences) =>
        let call := assembleCallRecord p d piiRedaction tsid mediaUrl sentences now
        match saveCalls f call tsid now db with
        | (Except.error _, db') => ⟨500, db', none⟩
        | (Except.ok _, db') =>
          if (dashboardBroadcast clients).2 then ⟨500, db', some call⟩
          else ⟨200, db', some call⟩

/-- The `CallRecord` assembled by the bun server's handler (`part_009`,
lines 340-354): keyed by the transcript sid, the cached details falling back
to empty strings.  `recordingType` and `transcript_sid` do not exist in this
variant's record type and are left empty. -/
def bunAssembleRecord (tsid url recordingDuration recordingUrl : String)
    (stored : Option (String × String)) (xs : List TranscriptSentence) (now : Nat) :
    CallRecord :=
  { id := tsid
    from_ := match stored with | none => "" | some d => d.1
    to_ := match stored with | none => "" | some d => d.2
    from_number := match stored with | none => "" | some d => d.1
    to_number := match stored with | none => "" | some d => d.2
    duration := recordingDuration
    recordingUrl := recordingUrl
    piiUrl := url
    recordingType := ""
    transcript_sid := ""
    createdAt := now
    transcript := mapSentences xs }

/-- The bun server's `/recording-status` handler (`part_009`): 400 without a
`RecordingSid`; always creates a transcript job and polls it (failures →
500); the cached details fall back to empty strings when absent; the record
(keyed by the transcript sid) is saved; the `new_call` broadcast catches
per-client errors, so it cannot fail the request.  The `recordingType` and
`transcript_sid` fields do not exist in this variant's record type and are
left empty. -/
def bunRecordingStatusHandler (env : RecordingEnv) (recordingSid : Option String)
    (callSid recordingDuration recordingUrl : String)
    (callDetails : List (String × String × String)) (f : SaveFaults) (now : Nat)
    (db : DBState) : HandlerResult :=
  match recordingSid with
  | none => ⟨400, db, none⟩
  | some _ =>
    match env.createTranscript with
    | Except.error _ => ⟨500, db, none⟩
    | Except.ok tsid =>
      match pollTranscriptStatus env.poll 10 with
      | Except.error _ => ⟨500, db, none⟩
      | Except.ok (url, xs) =>
        let newCall := bunAssembleRecord tsid url recordingDuration recordingUrl
          (callDetails.lookup callSid) xs now
        match saveCalls f newCall tsid now db with
        | (Except.error _, db') => ⟨500, db', none⟩
        | (Except.ok _, db') => ⟨200, db', some newCall⟩

/-- The transcript job was observed with status `completed` at attempt `i`. -/
def reachedCompleted (env : Nat → TranscriptAttempt) (i : Nat) : Prop :=
  match env i with
  | TranscriptAttempt.status s _ _ => s = "completed"
  | _ => False

/-! ### Helper lemmas -/

instance {e a : Type} [DecidableEq e] [DecidableEq a] : DecidableEq (Except e a) := fun x y =>
  match x, y with
  | Except.ok v, Except.ok w =>
    if h : v = w then isTrue (by subst h; rfl) else isFalse (fun hc => h (Except.ok.inj hc))
  | Except.ok _, Except.error _ => isFalse (fun hc => Except.noConfusion hc)
  | Except.error _, Except.ok _ => isFalse (fun hc => Except.noConfusion hc)
  | Except.error v, Except.error w =>
    if h : v = w then isTrue (by subst h; rfl) else isFalse (fun hc => h (Except.error.inj hc))


theorem strContains_empty (s : String) : strContains s "" = true := by
  simp [strContains]

theorem saveCalls_ok_state (f : SaveFaults) (call : CallRecord) (tsid : String) (now : Nat)
    (db db' : DBState) (u : Unit)
    (h : saveCalls f call tsid now db = (Except.ok u, db')) :
    db' = ⟨db.calls ++ [mkCallRow call tsid now], db.transcripts ++ mkTranscriptRows call⟩ := by
  unfold saveCalls at h
  split at h
  · simp at h
  · split at h
    · simp at h
    · simp only [Prod.mk.injEq] at h
      exact h.2.symm

theorem saveCalls_eq_ok (f : SaveFaults) (call : CallRecord) (tsid : String) (now : Nat)
    (db : DBState)
    (h1 : (f.callInsertFault || db.calls.any fun r => r.id == call.id) = false)
    (h2 : ((List.range call.transcript.length).any fun i => f.lineFaults.getD i false) = false) :
    saveCalls f call tsid now db =
      (Except.ok (), ⟨db.calls ++ [mkCallRow call tsid now],
        db.transcripts ++ mkTranscriptRows call⟩) := by
  unfold saveCalls
  rw [if_neg (by simp only [h1]; exact Bool.false_ne_true),
    if_neg (by simp only [h2]; exact Bool.false_ne_true)]

theorem saveCalls_eq_err1 (f : SaveFaults) (call : CallRecord) (tsid : String) (now : Nat)
    (db : DBState)
    (h1 : (f.callInsertFault || db.calls.any fun r => r.id == call.id) = true) :
    saveCalls f call tsid now db = (Except.error "Error inserting call record", db) := by
  unfold saveCalls
  rw [if_pos h1]

theorem saveCalls_eq_err2 (f : SaveFaults) (call : CallRecord) (tsid : String) (now : Nat)
    (db : DBState)
    (h1 : (f.callInsertFault || db.calls.any fun r => r.id == call.id) = false)
    (h2 : ((List.range call.transcript.length).any fun i => f.lineFaults.getD i false) = true) :
    saveCalls f call tsid now db = (Except.error "Failed to insert transcripts", db) := by
  unfold saveCalls
  rw [if_neg (by simp only [h1]; exact Bool.false_ne_true), if_pos h2]

theorem retry_step (env : Nat → TranscriptAttempt) (n attempt : Nat) (url : String)
    (xs : List TranscriptSentence)
    (h : (if (n == 0) = true then Except.error PollError.gateway
          else pollTranscriptFrom env (attempt + 1) n) = Except.ok (url, xs)) :
    pollTranscriptFrom env (attempt + 1) n = Except.ok (url, xs) := by
  by_cases hn : n = 0
  · simp [hn] at h
  · rwa [if_neg (by simpa using hn)] at h

theorem pollTranscriptFrom_ok_url (env : Nat → TranscriptAttempt) :
    ∀ remaining attempt url xs,
      pollTranscriptFrom env attempt remaining = Except.ok (url, xs) → url ≠ "" := by
  intro remaining
  induction remaining with
  | zero =>
    intro attempt url xs h
    simp [pollTranscriptFrom] at h
  | succ n ih =>
    intro attempt url xs h
    rw [pollTranscriptFrom] at h
    repeat' split at h
    all_goals try exact ih _ _ _ h
    all_goals simp_all

theorem pollTranscriptFrom_noComplete (env : Nat → TranscriptAttempt) :
    ∀ remaining attempt,
      (∀ j, j < remaining → ¬ reachedCompleted env (attempt + j)) →
      ∃ e, pollTranscriptFrom env attempt remaining = Except.error e := by
  intro remaining
  induction remaining with
  | zero =>
    intro attempt _
    exact ⟨PollError.timeout, rfl⟩
  | succ n ih =>
    intro attempt hpre
    have h0 : ¬ reachedCompleted env attempt := by
      simpa using hpre 0 (Nat.succ_pos n)
    have hnext : ∀ j, j < n → ¬ reachedCompleted env (attempt + 1 + j) := by
      intro j hj
      have := hpre (j + 1) (by omega)
      simpa [Nat.add_assoc, Nat.add_comm 1 j] using this
    rw [pollTranscriptFrom]
    rcases henv : env attempt with _ | ⟨s, media, sents⟩ <;> simp only [henv]
    · by_cases hn : n = 0
      · exact ⟨PollError.gateway, by simp [hn]⟩
      · obtain ⟨e, he⟩ := ih (attempt + 1) hnext
        exact ⟨e, by rw [if_neg (by simpa using hn)]; exact he⟩
    · have hs : s ≠ "completed" := fun hcontra => h0 (by simp [reachedCompleted, henv, hcontra])
      rw [if_neg (by simpa using hs)]
      exact ih (attempt + 1) hnext

/-! ### Claim C2 -/

/-- C2: `saveCalls` inserts exactly one call row and N transcript-line rows in
a single transaction and fails atomically: if the call insert or any
transcript-line insert fails, the promise rejects and the database state is
unchanged — no call row without its lines and no lines without their call row
are left behind. -/
theorem c2_save_atomic (f : SaveFaults) (call : CallRecord) (tsid : String) (now : Nat)
    (db : DBState) :
    ((saveCalls f call tsid now db).1 = Except.ok () →
      (saveCalls f call tsid now db).2.calls = db.calls ++ [mkCallRow call tsid now] ∧
      (saveCalls f call tsid now db).2.transcripts = db.transcripts ++ mkTranscriptRows call ∧
      (saveCalls f call tsid now db).2.transcripts.length =
        db.transcripts.length + call.transcript.length) ∧
    ((f.callInsertFault = true ∨
        ∃ i, i < call.transcript.length ∧ f.lineFaults.getD i false = true) →
      (∃ e, (saveCalls f call tsid now db).1 = Except.error e) ∧
      (saveCalls f call tsid now db).2 = db) := by
  constructor
  · intro h
    cases hb1 : (f.callInsertFault || db.calls.any fun r => r.id == call.id) with
    | true =>
      rw [saveCalls_eq_err1 f call tsid now db hb1] at h
      simp at h
    | false =>
      cases hb2 : ((List.range call.transcript.length).any fun i => f.lineFaults.getD i false) with
      | true =>
        rw [saveCalls_eq_err2 f call tsid now db hb1 hb2] at h
        simp at h
      | false =>
        rw [saveCalls_eq_ok f call tsid now db hb1 hb2]
        exact ⟨rfl, rfl, by simp [mkTranscriptRows]⟩
  · intro h
    cases hb1 : (f.callInsertFault || db.calls.any fun r => r.id == call.id) with
    | true =>
      rw [saveCalls_eq_err1 f call tsid now db hb1]
      exact ⟨⟨_, rfl⟩, rfl⟩
    | false =>
      have hcf : f.callInsertFault = false := by
        rcases Bool.or_eq_false_iff.mp hb1 with ⟨hx, _⟩
        exact hx
      rcases h with hc | ⟨i, hi, hf⟩
      · rw [hcf] at hc
        exact absurd hc (by simp)
      · have hb2 :
          ((List.range call.transcript.length).any fun i => f.lineFaults.getD i false) = true := by
          simp only [List.any_eq_true]
          exact ⟨i, List.mem_range.mpr hi, hf⟩
        rw [saveCalls_eq_err2 f call tsid now db hb1 hb2]
        exact ⟨⟨_, rfl⟩, rfl⟩

/-- The empty database. -/
def dbEmpty : DBState := ⟨[], []⟩

/-- A concrete call record with two transcript lines. -/
def callW2 : CallRecord :=
  { id := "CA100", from_ := "+15551234567", to_ := "+15559876543",
    from_number := "+15551234567", to_number := "+15559876543", duration := "42",
    recordingUrl := "https://rec", piiUrl := "", recordingType := "regular",
    transcript_sid := "", createdAt := 3,
    transcript := [⟨"customer", "hello"⟩, ⟨"assistant", "hi"⟩] }

/-- Faults making the second transcript-line insert fail. -/
def lineFaultW2 : SaveFaults := ⟨false, [false, true]⟩

/-- C2 witness: `saveCalls` evaluated on a concrete record, with and without
an injected line-insert failure. -/
theorem c2_save_atomic_witness :
    (saveCalls noFaults callW2 "" 3 dbEmpty).1 = Except.ok () ∧
    (saveCalls noFaults callW2 "" 3 dbEmpty).2.calls = dbEmpty.calls ++ [mkCallRow callW2 "" 3] ∧
    (saveCalls noFaults callW2 "" 3 dbEmpty).2.transcripts.length =
      dbEmpty.transcripts.length + callW2.transcript.length ∧
    (∃ e, (saveCalls lineFaultW2 callW2 "" 3 dbEmpty).1 = Except.error e) ∧
    (saveCalls lineFaultW2 callW2 "" 3 dbEmpty).2 = dbEmpty := by
  refine ⟨by decide, ((c2_save_atomic noFaults callW2 "" 3 dbEmpty).1 (by decide)).1,
    ((c2_save_atomic noFaults callW2 "" 3 dbEmpty).1 (by decide)).2.2, ?_, ?_⟩
  · exact ((c2_save_atomic lineFaultW2 callW2 "" 3 dbEmpty).2 (Or.inr ⟨1, by decide, by decide⟩)).1
  · exact ((c2_save_atomic lineFaultW2 callW2 "" 3 dbEmpty).2 (Or.inr ⟨1, by decide, by decide⟩)).2

/-! ### Claim C4 -/

/-- C4 (amended): deleting an existing id responds 204 and removes the call
row with all its transcript lines; an id recorded in the in-memory
`deletedCalls` set responds 204 as a no-op, so a second DELETE of a deleted
id succeeds; but an id that neither exists nor was deleted through this
endpoint responds 500 (the store's `No call found to delete` rejection is
mapped to 500, not 404). -/
theorem c4_delete_handler (id : String) (deleted : List String) (clients : List WsClient)
    (db : DBState) :
    (deleted.contains id = true →
      deleteCallHandler id deleted clients db = ⟨204, deleted, db⟩) ∧
    (deleted.contains id = false → db.calls.any (fun r => r.id == id) = true →
      (dashboardBroadcast clients).2 = false →
      deleteCallHandler id deleted clients db =
        ⟨204, deleted ++ [id],
          ⟨db.calls.filter (fun r => !(r.id == id)),
           db.transcripts.filter (fun t => !(t.call_id == id))⟩⟩ ∧
      (∀ clients2 db2,
        deleteCallHandler id (deleted ++ [id]) clients2 db2 = ⟨204, deleted ++ [id], db2⟩)) ∧
    (deleted.contains id = false → db.calls.any (fun r => r.id == id) = false →
      deleteCallHandler id deleted clients db = ⟨500, deleted, db⟩) := by
  refine ⟨?_, ?_, ?_⟩
  · intro h
    unfold deleteCallHandler
    rw [if_pos h]
  · intro h1 h2 h3
    constructor
    · unfold deleteCallHandler
      rw [if_neg (by simp only [h1]; exact Bool.false_ne_true)]
      unfold deleteCall
      rw [if_pos h2]
      simp [h3]
    · intro clients2 db2
      have hmem : (deleted ++ [id]).contains id = true := by simp
      unfold deleteCallHandler
      rw [if_pos hmem]
  · intro h1 h2
    unfold deleteCallHandler
    rw [if_neg (by simp only [h1]; exact Bool.false_ne_true)]
    unfold deleteCall
    rw [if_neg (by simp only [h2]; exact Bool.false_ne_true)]

/-- A database holding exactly one call (`CA1`) with one transcript line. -/
def dbW4 : DBState :=
  ⟨[⟨"CA1", "+1", "+2", "10", "ru", "", "", "regular", 1⟩], [⟨"CA1", "customer", "hey"⟩]⟩

/-- C4 witness: delete an existing call, then delete it again. -/
theorem c4_delete_handler_witness :
    deleteCallHandler "CA1" [] [] dbW4 = ⟨204, [] ++ ["CA1"], ⟨[], []⟩⟩ ∧
    deleteCallHandler "CA1" ([] ++ ["CA1"]) [] ⟨[], []⟩ = ⟨204, [] ++ ["CA1"], ⟨[], []⟩⟩ := by
  have h := (c4_delete_handler "CA1" [] [] dbW4).2.1 (by decide) (by decide) (by decide)
  exact ⟨h.1.trans (by decide), h.2 [] ⟨[], []⟩⟩

/-- C4 counterexample: a DELETE of an id that does not exist (and was never
deleted through this endpoint) responds 500, not 404 and not 204 as the
claim states. -/
theorem c4_nonexistent_counterexample :
    deleteCallHandler "CA9" [] [] ⟨[], []⟩ = ⟨500, [], ⟨[], []⟩⟩ ∧
    (deleteCallHandler "CA9" [] [] ⟨[], []⟩).status ≠ 404 ∧
    (deleteCallHandler "CA9" [] [] ⟨[], []⟩).status ≠ 204 := by decide

/-! ### Claim C6 -/

/-- C6 (amended): the transcript-status poll tolerates a transient gateway
error — an attempt that throws (other than the last) just advances to the
next attempt; the call-status poll, by contrast, stops on the first tick
that throws, regardless of its remaining attempt budget. -/
theorem c6_polling_retry :
    (∀ (env : Nat → TranscriptAttempt) (attempt n : Nat),
      env attempt = TranscriptAttempt.fetchError →
      pollTranscriptFrom env attempt (n + 2) = pollTranscriptFrom env (attempt + 1) (n + 1)) ∧
    (∀ (env : Nat → CallStatusTick) (tick fuel : Nat) (started : Bool),
      env tick = CallStatusTick.fetchError →
      pollCallStatusAux env tick fuel started = (tick + 1, started)) := by
  constructor
  · intro env attempt n h
    rw [pollTranscriptFrom]
    simp only [h]
    rw [if_neg (by simp)]
  · intro env tick fuel started h
    rw [pollCallStatusAux]
    simp only [h]

/-- A transcript-poll environment whose first attempt throws and whose later
attempts see a queued job. -/
def envT6 : Nat → TranscriptAttempt := fun t =>
  if t = 0 then TranscriptAttempt.fetchError else TranscriptAttempt.status "queued" none none

/-- A call-status environment whose first tick throws and whose later ticks
see a queued call. -/
def envC6 : Nat → CallStatusTick := fun t =>
  if t = 0 then CallStatusTick.fetchError else CallStatusTick.status "queued"

/-- C6 witness: both halves of the retry theorem at concrete environments. -/
theorem c6_polling_retry_witness :
    pollTranscriptFrom envT6 0 (1 + 2) = pollTranscriptFrom envT6 (0 + 1) (1 + 1) ∧
    pollCallStatusAux envC6 0 30 false = (0 + 1, false) :=
  ⟨c6_polling_retry.1 envT6 0 1 (by decide), c6_polling_retry.2 envC6 0 30 false (by decide)⟩

/-- C6 counterexample: `pollCallStatus` does not retry through a transient
error — its first tick throws, the next tick would have shown a non-terminal
`queued` status and 29 attempts of the budget remained, yet the loop stops
after one tick (and never starts recording). -/
theorem c6_abort_counterexample :
    envC6 0 = CallStatusTick.fetchError ∧
    envC6 1 = CallStatusTick.status "queued" ∧
    pollCallStatus envC6 = (1, false) := by decide

/-! ### Claim C7 -/

/-- C7 (amended): the bun server's broadcast sends to every client in the
set, catches each failing send and removes that client, and never raises;
the dashboard server's broadcast reaches exactly the open connections only
when no open client's send throws — a throwing send aborts delivery to the
clients not yet visited. -/
theorem c7_broadcast :
    (∀ cs : List WsClient,
      bunBroadcast cs = ((cs.filter (fun c => !c.sendFails)).map WsClient.cid,
        cs.filter (fun c => !c.sendFails))) ∧
    (∀ cs : List WsClient, (∀ c ∈ cs, c.isOpen = true → c.sendFails = false) →
      dashboardBroadcast cs = ((cs.filter (fun c => c.isOpen)).map WsClient.cid, false)) := by
  constructor
  · intro cs
    induction cs with
    | nil => rfl
    | cons c rest ih =>
      by_cases hf : c.sendFails
      · simp [bunBroadcast, hf, ih]
      · simp [bunBroadcast, hf, ih]
  · intro cs
    induction cs with
    | nil => intro _; rfl
    | cons c rest ih =>
      intro h
      have hrest := ih (fun x hx => h x (List.mem_cons_of_mem c hx))
      by_cases ho : c.isOpen
      · have hc : c.sendFails = false := h c (List.mem_cons_self c rest) ho
        simp [dashboardBroadcast, ho, hc, hrest]
      · simp [dashboardBroadcast, ho, hrest]

/-- Three sockets: two open, one closed. -/
def csW7 : List WsClient := [⟨1, true, false⟩, ⟨2, false, false⟩, ⟨3, true, false⟩]

/-- C7 witness: the dashboard broadcast at a concrete client set with a
closed socket in the middle delivers to the two open sockets. -/
theorem c7_broadcast_witness :
    dashboardBroadcast csW7 = ((csW7.filter (fun c => c.isOpen)).map WsClient.cid, false) ∧
    (csW7.filter (fun c => c.isOpen)).map WsClient.cid = [1, 3] :=
  ⟨c7_broadcast.2 csW7 (by decide), by decide⟩

/-- Three open sockets whose second send throws. -/
def csBad7 : List WsClient := [⟨1, true, false⟩, ⟨2, true, true⟩, ⟨3, true, false⟩]

/-- C7 counterexample: in the dashboard broadcast a failed send is not
dropped — it raises, and the third (open) socket never receives the
message. -/
theorem c7_abort_counterexample :
    dashboardBroadcast csBad7 = ([1], true) ∧
    csBad7.filter (fun c => c.isOpen) = csBad7 := by decide

/-! ### Claim C9 -/

/-- C9 (amended): a database read failure during list is swallowed, not
surfaced: `getCalls` resolves with an empty list and `GET /api/calls`
responds 200 with an empty page, never 500. -/
theorem c9_read_failure_swallowed (page limit : Nat) (db : DBState) :
    getCalls true db = [] ∧
    apiCallsHandler true page limit db = ⟨200, [], 0, 0⟩ := by
  have hdiv : (limit - 1) / limit = 0 := by
    cases limit with
    | zero => rfl
    | succ n => exact Nat.div_eq_of_lt (by omega)
  exact ⟨rfl, by simp [apiCallsHandler, getCalls, hdiv]⟩

/-- A database holding one call row. -/
def dbC9 : DBState := ⟨[⟨"CA1", "+1", "+2", "10", "ru", "", "", "regular", 1⟩], []⟩

/-- C9 counterexample: with a non-empty database and a failing read, the
endpoint answers 200 with an empty data array — the claimed HTTP 500 never
happens on this path. -/
theorem c9_swallowed_counterexample :
    apiCallsHandler true 1 10 dbC9 = ⟨200, [], 0, 0⟩ ∧
    (apiCallsHandler true 1 10 dbC9).status ≠ 500 ∧
    (getCalls false dbC9).length = 1 := by decide

/-! ### Claim C3 -/

/-- C3 (amended): the `/calls` list is ordered newest-first by creation time
and paginated by `[(page-1)*limit, page*limit)`; with a search term it
returns exactly the calls whose origin or destination number contains the
term case-SENSITIVELY, or one of whose transcript lines contains it
case-insensitively; `total` counts the matching calls. -/
theorem c3_list_search (db : DBState) (page limit : Nat) (search : String) (c : CallRecord) :
    (listCalls page limit search db).calls.Pairwise (fun a b => b.createdAt ≤ a.createdAt) ∧
    (listCalls page limit search db).calls =
      ((filteredCalls search db).drop ((page - 1) * limit)).take limit ∧
    (listCalls page limit search db).total = (filteredCalls search db).length ∧
    filteredCalls search db = (getCalls false db).filter (codeMatches search) ∧
    (c ∈ (listCalls page limit search db).calls →
      c ∈ getCalls false db ∧ codeMatches search c = true) := by
  have hsorted : (getCalls false db).Pairwise (fun a b => b.createdAt ≤ a.createdAt) := by
    unfold getCalls
    rw [if_neg (by simp)]
    rw [List.pairwise_map]
    exact (List.sorted_insertionSort newerFirst db.calls).imp (fun hab => hab)
  have hfiltered : filteredCalls search db = (getCalls false db).filter (codeMatches search) := by
    unfold filteredCalls
    by_cases hs : search = ""
    · subst hs
      rw [if_pos (by decide)]
      symm
      apply List.filter_eq_self.mpr
      intro a _
      simp [codeMatches, strContains_empty]
    · rw [if_neg (by simpa using hs)]
  have hfsorted :
      (filteredCalls search db).Pairwise (fun a b => b.createdAt ≤ a.createdAt) := by
    rw [hfiltered]
    exact List.Pairwise.sublist (List.filter_sublist _) hsorted
  refine ⟨?_, rfl, rfl, hfiltered, ?_⟩
  · exact List.Pairwise.sublist
      ((List.take_sublist _ _).trans (List.drop_sublist _ _)) hfsorted
  · intro hc
    have h1 : c ∈ filteredCalls search db :=
      ((List.take_sublist _ _).trans (List.drop_sublist _ _)).subset hc
    rw [hfiltered] at h1
    exact ⟨(List.mem_filter.mp h1).1, (List.mem_filter.mp h1).2⟩

/-- A call row whose origin number contains upper-case letters. -/
def rowAB : CallRow := ⟨"c1", "+1AB", "+2", "9", "ru", "", "", "regular", 3⟩

/-- A database holding only `rowAB`. -/
def dbC3 : DBState := ⟨[rowAB], []⟩

/-- The record `getCalls` produces for `rowAB`. -/
def callAB : CallRecord := rowToRecord dbC3 rowAB

/-- C3 counterexample: the search term `ab` matches the origin number `+1AB`
case-insensitively (as the claim demands), yet the code's number matching is
case-sensitive: the call is filtered out and the result page and total are
empty. -/
theorem c3_case_counterexample :
    specMatches "ab" callAB = true ∧
    callAB ∈ getCalls false dbC3 ∧
    (listCalls 1 10 "ab" dbC3).calls = [] ∧
    (listCalls 1 10 "ab" dbC3).total = 0 := by decide

/-- Two call rows, the older one with `555` in its origin number. -/
def rowW3a : CallRow := ⟨"c1", "+15551234567", "+15550000000", "9", "ru", "", "", "regular", 3⟩

/-- The newer of the two witness rows. -/
def rowW3b : CallRow := ⟨"c2", "+14440000000", "+14441111111", "7", "ru", "", "", "regular", 5⟩

/-- A database holding the two witness rows. -/
def dbW3 : DBState := ⟨[rowW3a, rowW3b], []⟩

/-- The record `getCalls` produces for `rowW3a`. -/
def callW3 : CallRecord := rowToRecord dbW3 rowW3a

/-- C3 witness: a concrete search returning a matching call. -/
theorem c3_list_search_witness :
    callW3 ∈ (listCalls 1 10 "555" dbW3).calls ∧
    callW3 ∈ getCalls false dbW3 ∧ codeMatches "555" callW3 = true := by
  have h := (c3_list_search dbW3 1 10 "555" callW3).2.2.2.2 (by decide)
  exact ⟨by decide, h.1, h.2⟩

/-! ### Reduction of the recording-status handler under success premises -/

theorem recordingStatusHandler_ok (env : RecordingEnv) (p : RecordingParams)
    (cd : List (String × String × String)) (f : SaveFaults) (clients : List WsClient)
    (now : Nat) (db : DBState) (d : String × String) (tsid url : String)
    (xs : List TranscriptSentence)
    (hstatus : p.RecordingStatus = "completed")
    (hd : cd.lookup p.CallSid = some d)
    (hf : f.callInsertFault = false) (hl : f.lineFaults = [])
    (hfresh : (db.calls.any fun r => r.id == p.CallSid) = false) :
    ((recordingStatusHandler env p false cd f clients now db).saved =
        some (assembleCallRecord p d false "" p.RecordingUrl [] now) ∧
      (recordingStatusHandler env p false cd f clients now db).db =
        ⟨db.calls ++ [mkCallRow (assembleCallRecord p d false "" p.RecordingUrl [] now) "" now],
         db.transcripts ++
           mkTranscriptRows (assembleCallRecord p d false "" p.RecordingUrl [] now)⟩) ∧
    (env.createTranscript = Except.ok tsid →
      pollTranscriptStatus env.poll 10 = Except.ok (url, xs) →
      (recordingStatusHandler env p true cd f clients now db).saved =
          some (assembleCallRecord p d true tsid url xs now) ∧
      (recordingStatusHandler env p true cd f clients now db).db =
        ⟨db.calls ++ [mkCallRow (assembleCallRecord p d true tsid url xs now) tsid now],
         db.transcripts ++
           mkTranscriptRows (assembleCallRecord p d true tsid url xs now)⟩) := by
  constructor
  · have hsaveA := saveCalls_eq_ok f (assembleCallRecord p d false "" p.RecordingUrl [] now)
      "" now db (by simp [assembleCallRecord, hf, hfresh]) (by simp [assembleCallRecord, hl])
    have hresA : ∃ st, recordingStatusHandler env p false cd f clients now db =
        ⟨st, ⟨db.calls ++ [mkCallRow (assembleCallRecord p d false "" p.RecordingUrl [] now) "" now],
              db.transcripts ++
                mkTranscriptRows (assembleCallRecord p d false "" p.RecordingUrl [] now)⟩,
         some (assembleCallRecord p d false "" p.RecordingUrl [] now)⟩ := by
      unfold recordingStatusHandler
      rw [if_neg (by simp [hstatus])]
      cases hb : (dashboardBroadcast clients).2
      · exact ⟨200, by simp [hd, hsaveA, hb]⟩
      · exact ⟨500, by simp [hd, hsaveA, hb]⟩
    obtain ⟨st, hres⟩ := hresA
    exact ⟨by rw [hres], by rw [hres]⟩
  · intro hct hpoll
    have hsaveB := saveCalls_eq_ok f (assembleCallRecord p d true tsid url xs now)
      tsid now db (by simp [assembleCallRecord, hf, hfresh]) (by simp [assembleCallRecord, hl])
    have hresB : ∃ st, recordingStatusHandler env p true cd f clients now db =
        ⟨st, ⟨db.calls ++ [mkCallRow (assembleCallRecord p d true tsid url xs now) tsid now],
              db.transcripts ++
                mkTranscriptRows (assembleCallRecord p d true tsid url xs now)⟩,
         some (assembleCallRecord p d true tsid url xs now)⟩ := by
      unfold recordingStatusHandler
      rw [if_neg (by simp [hstatus])]
      cases hb : (dashboardBroadcast clients).2
      · exact ⟨200, by simp [hd, hct, hpoll, hsaveB, hb]⟩
      · exact ⟨500, by simp [hd, hct, hpoll, hsaveB, hb]⟩
    obtain ⟨st, hres⟩ := hresB
    exact ⟨by rw [hres], by rw [hres]⟩

/-! ### Claim C5 -/

/-- C5: with `piiRedaction=true`, when the transcript-status poll exhausts
its 10 attempts without the job ever being observed `completed`, the
webhook handler responds 500 and the call is not persisted — the database is
unchanged and no record is saved. -/
theorem c5_timeout_not_persisted (env : RecordingEnv) (p : RecordingParams)
    (cd : List (String × String × String)) (f : SaveFaults) (clients : List WsClient)
    (now : Nat) (db : DBState) (d : String × String) (tsid : String)
    (hstatus : p.RecordingStatus = "completed")
    (hd : cd.lookup p.CallSid = some d)
    (hct : env.createTranscript = Except.ok tsid)
    (hpoll : ∀ j, j < 10 → ¬ reachedCompleted env.poll j) :
    recordingStatusHandler env p true cd f clients now db = ⟨500, db, none⟩ := by
  obtain ⟨e, he⟩ := pollTranscriptFrom_noComplete env.poll 10 0 (by
    intro j hj
    simpa using hpoll j hj)
  unfold recordingStatusHandler
  rw [if_neg (by simp [hstatus])]
  simp [hd, hct, pollTranscriptStatus, he]

/-- An environment whose transcript job is forever `processing`. -/
def envC5 : RecordingEnv :=
  ⟨Except.ok "GT1", fun _ => TranscriptAttempt.status "processing" none none⟩

/-- A completed-recording webhook for call `CA1` with duration 42. -/
def pC5 : RecordingParams := ⟨"CA1", "RE1", "https://rec", "completed", some "42"⟩

/-- Cached details for call `CA1`. -/
def cdC5 : List (String × String × String) := [("CA1", "+10", "+20")]

/-- C5 witness: the handler at a concrete never-completing environment. -/
theorem c5_timeout_not_persisted_witness :
    recordingStatusHandler envC5 pC5 true cdC5 noFaults [] 5 dbEmpty = ⟨500, dbEmpty, none⟩ :=
  c5_timeout_not_persisted envC5 pC5 cdC5 noFaults [] 5 dbEmpty ("+10", "+20") "GT1"
    rfl (by decide) rfl (by intro j _; simp [reachedCompleted, envC5])

/-! ### Claim C1 -/

/-- C1 (amended): on a completed recording webhook, with `piiRedaction=false`
the persisted record has an empty redacted-media URL, recording type
`regular` and no transcript lines; with `piiRedaction=true` and a completed
transcript job it has recording type `redacted`, its redacted-media URL is
the job's media URL, and its transcript lines are exactly the job's
sentences mapped to lines (speaker `customer` iff the channel is 1, else
`assistant`) — hence non-empty exactly when the job returned at least one
sentence. -/
theorem c1_persisted_record (env : RecordingEnv) (p : RecordingParams)
    (cd : List (String × String × String)) (f : SaveFaults) (clients : List WsClient)
    (now : Nat) (db : DBState) (d : String × String) (tsid url : String)
    (xs : List TranscriptSentence)
    (hstatus : p.RecordingStatus = "completed")
    (hd : cd.lookup p.CallSid = some d)
    (hf : f.callInsertFault = false) (hl : f.lineFaults = [])
    (hfresh : (db.calls.any fun r => r.id == p.CallSid) = false) :
    (∃ c, (recordingStatusHandler env p false cd f clients now db).saved = some c ∧
      c.piiUrl = "" ∧ c.recordingType = "regular" ∧ c.transcript = [] ∧
      (∃ row, (recordingStatusHandler env p false cd f clients now db).db.calls =
          db.calls ++ [row] ∧ row.pii_url = "" ∧ row.recording_type = "regular") ∧
      (recordingStatusHandler env p false cd f clients now db).db.transcripts =
        db.transcripts) ∧
    (env.createTranscript = Except.ok tsid →
      pollTranscriptStatus env.poll 10 = Except.ok (url, xs) →
      ∃ c, (recordingStatusHandler env p true cd f clients now db).saved = some c ∧
        c.recordingType = "redacted" ∧ c.piiUrl = url ∧
        c.transcript = xs.map (fun s =>
          { speaker := if s.media_channel = 1 then "customer" else "assistant"
            text := s.transcript }) ∧
        (c.transcript = [] ↔ xs = []) ∧
        (∃ row, (recordingStatusHandler env p true cd f clients now db).db.calls =
            db.calls ++ [row] ∧ row.recording_type = "redacted" ∧ row.pii_url = url) ∧
        (recordingStatusHandler env p true cd f clients now db).db.transcripts =
          db.transcripts ++ c.transcript.map (fun t =>
            { call_id := p.CallSid, speaker := t.speaker, text := t.text })) := by
  obtain ⟨⟨hsA, hdbA⟩, hB⟩ :=
    recordingStatusHandler_ok env p cd f clients now db d tsid url xs hstatus hd hf hl hfresh
  constructor
  · refine ⟨_, hsA, ?_, ?_, ?_, ⟨_, by rw [hdbA], ?_, ?_⟩, ?_⟩
    · simp [assembleCallRecord]
    · simp [assembleCallRecord]
    · simp [assembleCallRecord]
    · simp [mkCallRow, assembleCallRecord]
    · simp [mkCallRow, assembleCallRecord]
    · rw [hdbA]
      simp [mkTranscriptRows, assembleCallRecord]
  · intro hct hpoll
    obtain ⟨hsB, hdbB⟩ := hB hct hpoll
    have hurl : url ≠ "" := pollTranscriptFrom_ok_url env.poll 10 0 url xs hpoll
    refine ⟨_, hsB, ?_, ?_, ?_, ?_, ⟨_, by rw [hdbB], ?_, ?_⟩, ?_⟩
    · simp [assembleCallRecord]
    · simp [assembleCallRecord]
    · simp [assembleCallRecord, mapSentences]
    · simp [assembleCallRecord, mapSentences]
    · simp [mkCallRow, assembleCallRecord, hurl]
    · simp [mkCallRow, assembleCallRecord]
    · rw [hdbB]
      simp [mkTranscriptRows, assembleCallRecord]

/-- Two sentences, one per audio channel. -/
def sentW1 : List TranscriptSentence := [⟨1, "hi there"⟩, ⟨2, "hello"⟩]

/-- An environment whose transcript job completes immediately with two
sentences. -/
def envW1 : RecordingEnv :=
  ⟨Except.ok "GT1", fun _ => TranscriptAttempt.status "completed" (some "https://m") (some sentW1)⟩

/-- A completed-recording webhook for call `CA1`. -/
def pW1 : RecordingParams := ⟨"CA1", "RE1", "https://rec", "completed", some "42"⟩

/-- Cached details for call `CA1`. -/
def cdW1 : List (String × String × String) := [("CA1", "+10", "+20")]

/-- C1 witness: the redaction branch at a concrete completed job with two
sentences. -/
theorem c1_persisted_record_witness :
    ∃ c, (recordingStatusHandler envW1 pW1 true cdW1 noFaults [] 5 dbEmpty).saved = some c ∧
      c.recordingType = "redacted" ∧ c.piiUrl = "https://m" ∧
      c.transcript = sentW1.map (fun s =>
        { speaker := if s.media_channel = 1 then "customer" else "assistant"
          text := s.transcript }) ∧
      (c.transcript = [] ↔ sentW1 = []) ∧
      (∃ row, (recordingStatusHandler envW1 pW1 true cdW1 noFaults [] 5 dbEmpty).db.calls =
          dbEmpty.calls ++ [row] ∧ row.recording_type = "redacted" ∧
          row.pii_url = "https://m") ∧
      (recordingStatusHandler envW1 pW1 true cdW1 noFaults [] 5 dbEmpty).db.transcripts =
        dbEmpty.transcripts ++ c.transcript.map (fun t =>
          { call_id := pW1.CallSid, speaker := t.speaker, text := t.text }) :=
  (c1_persisted_record envW1 pW1 cdW1 noFaults [] 5 dbEmpty ("+10", "+20") "GT1" "https://m"
    sentW1 rfl (by decide) rfl rfl (by decide)).2 rfl (by decide)

/-- An environment whose transcript job completes with an empty sentence
list. -/
def envX1 : RecordingEnv :=
  ⟨Except.ok "GT1", fun _ => TranscriptAttempt.status "completed" (some "https://m") (some [])⟩

/-- C1 counterexample: the transcript job completes (with zero sentences),
the call is persisted with recording type `redacted` — but its transcript
line list is empty, contradicting the claim that it is non-empty. -/
theorem c1_empty_transcript_counterexample :
    pollTranscriptStatus envX1.poll 10 = Except.ok ("https://m", []) ∧
    (recordingStatusHandler envX1 pW1 true cdW1 noFaults [] 5 dbEmpty).status = 200 ∧
    (recordingStatusHandler envX1 pW1 true cdW1 noFaults [] 5 dbEmpty).saved.map
      CallRecord.recordingType = some "redacted" ∧
    (recordingStatusHandler envX1 pW1 true cdW1 noFaults [] 5 dbEmpty).saved.map
      CallRecord.transcript = some [] ∧
    (recordingStatusHandler envX1 pW1 true cdW1 noFaults [] 5 dbEmpty).db.transcripts = [] := by
  decide

/-! ### Claim C8 -/

/-- C8 (amended): on a completed recording webhook whose CallSid has no
cached origin/destination entry, the dashboard server does NOT persist the
call — the handler throws over the missing details and responds 500 with the
database unchanged; it is the bun-server variant that persists the call with
empty strings in the number fields. -/
theorem c8_no_details (env : RecordingEnv) (p : RecordingParams)
    (cd : List (String × String × String)) (f : SaveFaults) (clients : List WsClient)
    (now : Nat) (db : DBState) (pii : Bool) (callSid recDur recUrl rsid tsid url : String)
    (xs : List TranscriptSentence) :
    (p.RecordingStatus = "completed" → cd.lookup p.CallSid = none →
      recordingStatusHandler env p pii cd f clients now db = ⟨500, db, none⟩) ∧
    (cd.lookup callSid = none → env.createTranscript = Except.ok tsid →
      pollTranscriptStatus env.poll 10 = Except.ok (url, xs) →
      f.callInsertFault = false → f.lineFaults = [] →
      (db.calls.any fun r => r.id == tsid) = false →
      (bunRecordingStatusHandler env (some rsid) callSid recDur recUrl cd f now db).status =
        200 ∧
      ∃ row,
        (bunRecordingStatusHandler env (some rsid) callSid recDur recUrl cd f now db).db.calls =
          db.calls ++ [row] ∧ row.from_number = "" ∧ row.to_number = "") := by
  constructor
  · intro hstatus hnone
    unfold recordingStatusHandler
    rw [if_neg (by simp [hstatus])]
    simp [hnone]
  · intro hnone hct hpoll hf hl hfresh
    have hsave := saveCalls_eq_ok f
      (bunAssembleRecord tsid url recDur recUrl (cd.lookup callSid) xs now) tsid now db
      (by simp [bunAssembleRecord, hf, hfresh]) (by simp [bunAssembleRecord, hl])
    have hres : bunRecordingStatusHandler env (some rsid) callSid recDur recUrl cd f now db =
        ⟨200,
         ⟨db.calls ++
            [mkCallRow (bunAssembleRecord tsid url recDur recUrl (cd.lookup callSid) xs now)
              tsid now],
          db.transcripts ++
            mkTranscriptRows (bunAssembleRecord tsid url recDur recUrl (cd.lookup callSid) xs now)⟩,
         some (bunAssembleRecord tsid url recDur recUrl (cd.lookup callSid) xs now)⟩ := by
      unfold bunRecordingStatusHandler
      simp [hct, hpoll, hsave]
    rw [hres]
    exact ⟨rfl, _, rfl, by simp [mkCallRow, bunAssembleRecord, hnone],
      by simp [mkCallRow, bunAssembleRecord, hnone]⟩

/-- An environment whose transcript job completes with no sentences. -/
def envW8 : RecordingEnv :=
  ⟨Except.ok "GT8", fun _ => TranscriptAttempt.status "completed" (some "https://m8") (some [])⟩

/-- A completed-recording webhook for call `CA8`, which has no cached
details. -/
def pW8 : RecordingParams := ⟨"CA8", "RE8", "https://rec8", "completed", some "7"⟩

/-- C8 witness: both handlers at a concrete webhook with an empty details
cache. -/
theorem c8_no_details_witness :
    recordingStatusHandler envW8 pW8 true [] noFaults [] 5 dbEmpty = ⟨500, dbEmpty, none⟩ ∧
    ((bunRecordingStatusHandler envW8 (some "RE8") "CA8" "7" "https://rec8" [] noFaults 5
        dbEmpty).status = 200 ∧
      ∃ row,
        (bunRecordingStatusHandler envW8 (some "RE8") "CA8" "7" "https://rec8" [] noFaults 5
          dbEmpty).db.calls = dbEmpty.calls ++ [row] ∧
        row.from_number = "" ∧ row.to_number = "") :=
  ⟨(c8_no_details envW8 pW8 [] noFaults [] 5 dbEmpty true "CA8" "7" "https://rec8" "RE8" "GT8"
      "https://m8" []).1 rfl rfl,
   (c8_no_details envW8 pW8 [] noFaults [] 5 dbEmpty true "CA8" "7" "https://rec8" "RE8" "GT8"
      "https://m8" []).2 rfl rfl (by decide) rfl rfl rfl⟩

/-- C8 counterexample: in the dashboard server a completed recording webhook
with no cached details is NOT persisted with empty number fields — the
handler responds 500 and saves nothing. -/
theorem c8_not_persisted_counterexample :
    recordingStatusHandler envW8 pW8 true [] noFaults [] 5 dbEmpty = ⟨500, dbEmpty, none⟩ ∧
    (recordingStatusHandler envW8 pW8 true [] noFaults [] 5 dbEmpty).saved = none ∧
    (recordingStatusHandler envW8 pW8 true [] noFaults [] 5 dbEmpty).db.calls = [] := by decide

/-! ### Claim C10 -/

/-- C10: on a completed recording webhook whose `RecordingDuration` is
missing or empty, the webhook is not rejected for that reason and the
persisted call record's duration field is the string `"0"` (both record and
database row), in both the plain and the redaction branch. -/
theorem c10_duration_default (env : RecordingEnv) (p : RecordingParams)
    (cd : List (String × String × String)) (f : SaveFaults) (clients : List WsClient)
    (now : Nat) (db : DBState) (d : String × String) (tsid url : String)
    (xs : List TranscriptSentence)
    (hstatus : p.RecordingStatus = "completed")
    (hd : cd.lookup p.CallSid = some d)
    (hf : f.callInsertFault = false) (hl : f.lineFaults = [])
    (hfresh : (db.calls.any fun r => r.id == p.CallSid) = false)
    (hdur : p.RecordingDuration = none ∨ p.RecordingDuration = some "") :
    (∃ c, (recordingStatusHandler env p false cd f clients now db).saved = some c ∧
      c.duration = "0" ∧
      ∃ row, (recordingStatusHandler env p false cd f clients now db).db.calls =
        db.calls ++ [row] ∧ row.duration = "0") ∧
    (env.createTranscript = Except.ok tsid →
      pollTranscriptStatus env.poll 10 = Except.ok (url, xs) →
      ∃ c, (recordingStatusHandler env p true cd f clients now db).saved = some c ∧
        c.duration = "0" ∧
        ∃ row, (recordingStatusHandler env p true cd f clients now db).db.calls =
          db.calls ++ [row] ∧ row.duration = "0") := by
  obtain ⟨⟨hsA, hdbA⟩, hB⟩ :=
    recordingStatusHandler_ok env p cd f clients now db d tsid url xs hstatus hd hf hl hfresh
  have hdur0 : ∀ (pii : Bool) (tsid' url' : String) (xs' : List TranscriptSentence),
      (assembleCallRecord p d pii tsid' url' xs' now).duration = "0" := by
    intro pii tsid' url' xs'
    rcases hdur with h | h <;> simp [assembleCallRecord, h]
  constructor
  · exact ⟨_, hsA, hdur0 false "" p.RecordingUrl [],
      _, by rw [hdbA], by simp [mkCallRow]; exact hdur0 false "" p.RecordingUrl []⟩
  · intro hct hpoll
    obtain ⟨hsB, hdbB⟩ := hB hct hpoll
    exact ⟨_, hsB, hdur0 true tsid url xs,
      _, by rw [hdbB], by simp [mkCallRow]; exact hdur0 true tsid url xs⟩

/-- A completed-recording webhook for `CA1` with no `RecordingDuration`
parameter. -/
def pW10 : RecordingParams := ⟨"CA1", "RE1", "https://rec", "completed", none⟩

/-- C10 witness: the handler at a concrete webhook with an absent duration
persists duration `"0"`. -/
theorem c10_duration_default_witness :
    ∃ c, (recordingStatusHandler envW1 pW10 false cdW1 noFaults [] 5 dbEmpty).saved = some c ∧
      c.duration = "0" ∧
      ∃ row, (recordingStatusHandler envW1 pW10 false cdW1 noFaults [] 5 dbEmpty).db.calls =
        dbEmpty.calls ++ [row] ∧ row.duration = "0" :=
  (c10_duration_default envW1 pW10 cdW1 noFaults [] 5 dbEmpty ("+10", "+20") "GT1" "https://m"
    sentW1 rfl (by decide) rfl rfl (by decide) (Or.inl rfl)).1
